import Mathlib

set_option autoImplicit false

/-!
Verification development for the flight-price-estimation repository.

Shallow embedding of the parts of the code the claims below are about:
* `src/ml/models.py` / `src/ml/train.py` — the `EnsembleModel` class
  (weighted ensemble of three regressors);
* `src/ml/data.py` — `FlightDataProcessor.preprocess` (column handling);
* `src/app/api.py` — the `/reload` and `/predict` endpoints;
* `scripts/validate_model.py` — threshold validation;
* `scripts/promote_model.py` — alias promotion;
* `src/monitoring/drift_detection.py` — drift detection.

External libraries (sklearn regressors, MLflow client, the database session,
pandas DataFrame construction, evidently reports, `np.sqrt`) are modelled as
parameters or as small structures carrying exactly the behaviour the
surrounding code observes.
-/

/-! ## Ensemble model — `EnsembleModel` (src/ml/models.py lines 16-100,
identical copy in src/ml/train.py lines 25-109) -/

/-- Errors that `EnsembleModel.predict` can raise.  `keyError` models a Python
`KeyError` on a dict lookup (`predictions['random_forest']` or
`self.weights[name]`); `notFittedError` models sklearn's error when
`model.predict` is called on an unfitted regressor; `shapeMismatch` models the
numpy broadcast error on `ensemble_pred += weight * pred` with incompatible
shapes.  `modelNotReady` is the error the specification names; it is included
only so the spec's claim can be stated — the implementation never raises it. -/
inductive PredError where
  | keyError (k : String)
  | notFittedError
  | shapeMismatch
  | modelNotReady
  deriving DecidableEq

/-- An sklearn-style regressor as the ensemble code observes it: whether `fit`
has been called, and the prediction function it implements once fitted.
Predictions are vectors of rationals (one value per input row). -/
structure SubModel (α : Type) where
  fitted : Bool
  predict : α → List ℚ

/-- `EnsembleModel.__init__`: `self.models` (a dict, insertion-ordered) and
`self.weights = config['ensemble']['weights']` (a dict). -/
structure EnsembleModel (α : Type) where
  models : List (String × SubModel α)
  weights : List (String × ℚ)

/-- `model.predict(X)` on one sub-model: raises if the model is not fitted. -/
def subPredict {α : Type} (m : SubModel α) (X : α) : Except PredError (List ℚ) :=
  if m.fitted then .ok (m.predict X) else .error .notFittedError

/-- The first loop of `EnsembleModel.predict`:
`for name, model in self.models.items(): predictions[name] = model.predict(X)`.
The first unfitted sub-model aborts the whole call. -/
def gatherPredictions {α : Type} : List (String × SubModel α) → α →
    Except PredError (List (String × List ℚ))
  | [], _ => .ok []
  | (n, m) :: rest, X => do
    let p ← subPredict m X
    let ps ← gatherPredictions rest X
    .ok ((n, p) :: ps)

/-- Python dict subscript `d[k]`: `KeyError` when the key is absent. -/
def dictLookup {β : Type} (d : List (String × β)) (k : String) : Except PredError β :=
  match d.lookup k with
  | some v => .ok v
  | none => .error (.keyError k)

/-- numpy elementwise `+` on two 1-d arrays of the same length (the code never
relies on broadcasting; a length mismatch is an error as in numpy). -/
def vecAdd (a b : List ℚ) : Except PredError (List ℚ) :=
  if a.length = b.length then .ok (List.zipWith (· + ·) a b) else .error .shapeMismatch

/-- The second loop of `EnsembleModel.predict`:
`for name, pred in predictions.items(): weight = self.weights[name];
ensemble_pred += weight * pred`. -/
def weightedFold (weights : List (String × ℚ)) :
    List (String × List ℚ) → List ℚ → Except PredError (List ℚ)
  | [], acc => .ok acc
  | (n, p) :: rest, acc => do
    let w ← dictLookup weights n
    let acc2 ← vecAdd acc (p.map (fun x => w * x))
    weightedFold weights rest acc2

/-- `EnsembleModel.predict` (models.py lines 64-85): gather each sub-model's
prediction, start from `np.zeros_like(predictions['random_forest'])` and add
each weighted prediction. -/
def ensemblePredict {α : Type} (e : EnsembleModel α) (X : α) : Except PredError (List ℚ) := do
  let predictions ← gatherPredictions e.models X
  let rfp ← dictLookup predictions "random_forest"
  weightedFold e.weights predictions (rfp.map (fun _ => (0 : ℚ)))

/-! ## Training pipeline metrics — src/ml/train.py lines 135-166 and 212-225 -/

/-- `np.mean` of a 1-d array.  Lean's rational division by zero yields 0 where
numpy would yield NaN on an empty array; no theorem below evaluates the mean
of an empty array. -/
def npMean (xs : List ℚ) : ℚ := xs.sum / (xs.length : ℚ)

/-- `sklearn.metrics.mean_absolute_error`. -/
def mean_absolute_error (y yhat : List ℚ) : ℚ :=
  npMean (List.zipWith (fun a b => |a - b|) y yhat)

/-- `sklearn.metrics.mean_squared_error`. -/
def mean_squared_error (y yhat : List ℚ) : ℚ :=
  npMean (List.zipWith (fun a b => (a - b) ^ 2) y yhat)

/-- `sklearn.metrics.r2_score`: `1 - ss_res / ss_tot` (sklearn's degenerate
zero-variance branches are not modelled; no theorem below evaluates them). -/
def r2_score (y yhat : List ℚ) : ℚ :=
  1 - (List.zipWith (fun a b => (a - b) ^ 2) y yhat).sum
    / (y.map (fun a => (a - npMean y) ^ 2)).sum

/-- `np.mean(np.abs((y_test - y_pred) / y_test)) * 100` (train.py line 159).
Rational division by zero yields 0 where numpy produces inf/NaN — the spec
itself flags zero true values as an undefined edge case. -/
def mapeExpr (y yhat : List ℚ) : ℚ :=
  npMean (List.zipWith (fun a b => |(a - b) / a|) y yhat) * 100

/-- `evaluate_model` (train.py lines 135-166): the metrics dict computed on
the ensemble's predictions.  `sqrtFn` stands for `np.sqrt` (irrational in
general, hence a parameter). -/
def evaluate_model {α : Type} (sqrtFn : ℚ → ℚ) (model : EnsembleModel α) (X_test : α)
    (y_test : List ℚ) : Except PredError (List (String × ℚ)) := do
  let y_pred ← ensemblePredict model X_test
  .ok [("mae", mean_absolute_error y_test y_pred),
       ("rmse", sqrtFn (mean_squared_error y_test y_pred)),
       ("r2_score", r2_score y_test y_pred),
       ("mape", mapeExpr y_test y_pred)]

/-- The per-sub-model loop of `train_model` (train.py lines 217-225): for each
sub-model, the metrics logged are `{name}_mae`, `{name}_rmse` and `{name}_r2`
— these three and no others. -/
def individualMetrics {α : Type} (sqrtFn : ℚ → ℚ) :
    List (String × SubModel α) → α → List ℚ → Except PredError (List (String × ℚ))
  | [], _, _ => .ok []
  | (name, m) :: rest, X_test, y_test => do
    let yp ← subPredict m X_test
    let tailMs ← individualMetrics sqrtFn rest X_test y_test
    .ok ([(name ++ "_mae", mean_absolute_error y_test yp),
          (name ++ "_rmse", sqrtFn (mean_squared_error y_test yp)),
          (name ++ "_r2", r2_score y_test yp)] ++ tailMs)

/-- All metrics the training pipeline logs to MLflow for one run
(train.py lines 212-225): `mlflow.log_metrics(metrics)` for the ensemble,
then the per-sub-model `mlflow.log_metrics(individual_metrics)` calls in
model order. -/
def trainLoggedMetrics {α : Type} (sqrtFn : ℚ → ℚ) (model : EnsembleModel α) (X_test : α)
    (y_test : List ℚ) : Except PredError (List (String × ℚ)) := do
  let ms ← evaluate_model sqrtFn model X_test y_test
  let ind ← individualMetrics sqrtFn model.models X_test y_test
  .ok (ms ++ ind)

/-! ## Feature processor — `FlightDataProcessor.preprocess`
(src/ml/data.py lines 91-136).  The sklearn scaling branch that ends
`preprocess` (lines 138-156) transforms the values of the finished frame
without changing its shape; it is an external-library call and not part of
the frame construction modelled here. -/

/-- One pandas column as `preprocess` observes it: numeric dtype (rationals,
`none` modelling NaN) or object dtype (strings). -/
inductive Column where
  | num (vals : List (Option ℚ))
  | obj (vals : List String)
  deriving DecidableEq

/-- A pandas DataFrame: a row count and named columns in order. -/
structure Df where
  nrows : Nat
  cols : List (String × Column)
  deriving DecidableEq

/-- An `sklearn.preprocessing.LabelEncoder` after `fit`: its class list. -/
structure LabelEncoder where
  classes : List String
  deriving DecidableEq

/-- The configuration fields `preprocess` reads: `config['data']['target']`
and `config['data']['features']['numerical']`. -/
structure DataConfig where
  target : String
  numerical : List String
  deriving DecidableEq

/-- The processor state `preprocess` reads and writes: `self.feature_names`
and `self.label_encoders`. -/
structure ProcState where
  feature_names : Option (List String)
  label_encoders : List (String × LabelEncoder)
  deriving DecidableEq

/-- Python dict assignment `d[k] = v`. -/
def assocSet {β : Type} (d : List (String × β)) (k : String) (v : β) :
    List (String × β) :=
  if (d.lookup k).isSome then d.map (fun p => if p.1 = k then (k, v) else p)
  else d ++ [(k, v)]

/-- `LabelEncoder.fit`: the sorted unique values (`np.unique`). -/
def fitClasses (vals : List String) : List String :=
  List.insertionSort (· ≤ ·) vals.dedup

/-- `le.transform([x])[0] if x in le.classes_ else -1` (data.py line 122):
the index of the value among the classes, or the sentinel -1 for a value
unseen at fit time. -/
def leTransformOne (enc : LabelEncoder) (x : String) : ℚ :=
  if x ∈ enc.classes then ((enc.classes.indexOf x : ℕ) : ℚ) else -1

/-- One iteration of the encoding loop (data.py lines 110-126) on one column:
object columns are label-encoded when fitting; at inference time a stored
encoder maps values (unseen ones to -1), and a column with no stored encoder
is overwritten by the scalar 0 (`df[col] = 0`). -/
def encodeOne (fit : Bool) (nrows : Nat) (encs : List (String × LabelEncoder))
    (name : String) (c : Column) : List (String × LabelEncoder) × Column :=
  match c with
  | .num vs => (encs, .num vs)
  | .obj vs =>
    if fit then
      let enc : LabelEncoder := ⟨fitClasses vs⟩
      (assocSet encs name enc,
       .num (vs.map (fun x => some ((enc.classes.indexOf x : ℕ) : ℚ))))
    else
      match encs.lookup name with
      | some enc => (encs, .num (vs.map (fun x => some (leTransformOne enc x))))
      | none => (encs, .num (List.replicate nrows (some (0 : ℚ))))

/-- The encoding loop over all columns in order, threading the encoder dict. -/
def encodeCols (fit : Bool) (nrows : Nat) (encs : List (String × LabelEncoder)) :
    List (String × Column) → List (String × LabelEncoder) × List (String × Column)
  | [] => (encs, [])
  | (n, c) :: rest =>
    let r1 := encodeOne fit nrows encs n c
    let r2 := encodeCols fit nrows r1.1 rest
    (r2.1, (n, r1.2) :: r2.2)

/-- pandas `Series.median()` over the non-NaN values: the middle of the sorted
values (mean of the two middles for an even count), NaN (`none`) when empty. -/
def medianQ (xs : List ℚ) : Option ℚ :=
  let s := List.insertionSort (· ≤ ·) xs
  let n := s.length
  if n = 0 then none
  else if n % 2 = 1 then s[n / 2]?
  else
    match s[n / 2 - 1]?, s[n / 2]? with
    | some a, some b => some ((a + b) / 2)
    | _, _ => none

/-- `df[col].fillna(df[col].median())` on one column (object columns are
untouched: the configured numerical features are numeric). -/
def fillnaCol : Column → Column
  | .num vs =>
    match medianQ (vs.filterMap id) with
    | some m => .num (vs.map (fun v => some (v.getD m)))
    | none => .num vs
  | .obj vs => .obj vs

/-- The missing-value imputation loop (data.py lines 104-107): each configured
numerical feature present in the frame is filled in place (absent ones are
no-ops). -/
def fillnaStep (cfg : DataConfig) (df : Df) : Df :=
  ⟨df.nrows, cfg.numerical.foldl
    (fun cols c => cols.map (fun p => (p.1, if p.1 = c then fillnaCol p.2 else p.2)))
    df.cols⟩

/-- Target separation (data.py lines 98-101). -/
def dropTarget (cfg : DataConfig) (df : Df) : Df × Option Column :=
  match df.cols.lookup cfg.target with
  | some c => (⟨df.nrows, df.cols.filter (fun p => decide (p.1 ≠ cfg.target))⟩, some c)
  | none => (df, none)

/-- `missing_cols = set(self.feature_names) - set(df.columns)` followed by
`df[col] = 0` for each missing column (data.py lines 133-135). -/
def padMissing (names : List String) (df : Df) : Df :=
  let missing := names.filter (fun c => (df.cols.lookup c).isNone)
  ⟨df.nrows,
   df.cols ++ missing.map (fun c => (c, Column.num (List.replicate df.nrows (some (0 : ℚ)))))⟩

/-- Column selection `df[self.feature_names]` (data.py line 136): each name in
order; `KeyError` when a name is absent. -/
def selectCols (df : Df) : List String → Except String (List (String × Column))
  | [] => .ok []
  | c :: rest =>
    match df.cols.lookup c with
    | some col => (selectCols df rest).map (fun l => (c, col) :: l)
    | none => .error "KeyError"

def selectColumns (names : List String) (df : Df) : Except String Df :=
  (selectCols df names).map (fun l => ⟨df.nrows, l⟩)

/-- `FlightDataProcessor.preprocess` (data.py lines 91-136) up to the finished
feature frame: target separation, median imputation, categorical encoding,
then either recording the schema (`fit=True`) or pad-and-reorder to the stored
schema (`fit=False`).  Calling with `fit=False` before any fit raises a
`TypeError` in Python (`set(None)`). -/
def preprocessFrame (cfg : DataConfig) (st : ProcState) (df : Df) (fit : Bool) :
    Except String (ProcState × Df × Option Column) :=
  let dt := dropTarget cfg df
  let df2 := fillnaStep cfg dt.1
  let enc := encodeCols fit df2.nrows st.label_encoders df2.cols
  let df3 : Df := ⟨df2.nrows, enc.2⟩
  if fit then
    .ok (⟨some (df3.cols.map Prod.fst), enc.1⟩, df3, dt.2)
  else
    match st.feature_names with
    | none => .error "TypeError"
    | some names =>
      (selectColumns names (padMissing names df3)).map
        (fun df4 => (⟨st.feature_names, enc.1⟩, df4, dt.2))

/-! ## Threshold validation — `validate_model`
(scripts/validate_model.py lines 70-134) -/

/-- `config['evaluation']['thresholds']`. -/
structure Thresholds where
  min_r2 : ℚ
  max_rmse : ℚ
  max_mape : ℚ
  deriving DecidableEq

/-- One entry of `validation_results`: `{'value': v, 'threshold': t,
'passed': b}`. -/
structure CheckResult where
  value : ℚ
  threshold : ℚ
  passed : Bool
  deriving DecidableEq

/-- The threshold section of `validate_model` (lines 70-121): each of
`r2_score`, `rmse` and `mape` is checked only when present in the run's
metrics dict; every present check is appended to `validation_results`;
`passed` starts true and is cleared by any failing check.  Returns
(overall pass, results). -/
def validateThresholds (metrics : List (String × ℚ)) (t : Thresholds) :
    Bool × List (String × CheckResult) :=
  let s0 : Bool × List (String × CheckResult) := (true, [])
  let s1 :=
    match metrics.lookup "r2_score" with
    | some r2 =>
      (s0.1 && decide (r2 ≥ t.min_r2),
       s0.2 ++ [("r2_score", ⟨r2, t.min_r2, decide (r2 ≥ t.min_r2)⟩)])
    | none => s0
  let s2 :=
    match metrics.lookup "rmse" with
    | some v =>
      (s1.1 && decide (v ≤ t.max_rmse),
       s1.2 ++ [("rmse", ⟨v, t.max_rmse, decide (v ≤ t.max_rmse)⟩)])
    | none => s1
  let s3 :=
    match metrics.lookup "mape" with
    | some v =>
      (s2.1 && decide (v ≤ t.max_mape),
       s2.2 ++ [("mape", ⟨v, t.max_mape, decide (v ≤ t.max_mape)⟩)])
    | none => s2
  s3

/-! ## Promotion — `promote_model` (scripts/promote_model.py lines 18-79) -/

/-- A registry model version as the script reads it. -/
structure VersionInfo where
  version : String
  run_id : String
  status : String
  deriving DecidableEq

/-- The MLflow registry client operations `promote_model` calls, over an
abstract registry state `σ` (the registry is an external service). -/
structure MlflowClientOps (σ : Type) where
  get_model_version : σ → String → String → Except String VersionInfo
  set_registered_model_alias : σ → String → String → String → Except String σ
  get_model_version_by_alias : σ → String → String → Except String VersionInfo

inductive PromoteOutcome where
  | success
  | exitOne
  deriving DecidableEq

/-- `promote_model` (lines 18-79): look up the version (any exception reaches
the outer handler, which logs and calls `sys.exit(1)`); set the alias; re-read
the alias — the resolved version is only logged, the code performs no
comparison with the requested version; optionally POST `/reload`, whose
failure is merely logged; then report success. -/
def promote_model {σ : Type} (client : MlflowClientOps σ) (st : σ)
    (model_name version aliasName : String) (reload_app : Bool)
    (postReload : σ → Except String Unit) : σ × PromoteOutcome :=
  match client.get_model_version st model_name version with
  | .error _ => (st, .exitOne)
  | .ok _ =>
    match client.set_registered_model_alias st model_name aliasName version with
    | .error _ => (st, .exitOne)
    | .ok st1 =>
      match client.get_model_version_by_alias st1 model_name aliasName with
      | .error _ => (st1, .exitOne)
      | .ok _alias_version =>
        if reload_app then
          match postReload st1 with
          | .ok _ => (st1, .success)
          | .error _ => (st1, .success)
        else (st1, .success)

/-! ## Serving API — src/app/api.py -/

/-- The `model_info` dict both loaders build (api.py lines 154-160, 180-186). -/
structure ModelInfo where
  model_name : String
  model_version : String
  model_alias : Option String
  loaded_at : String
  model_type : String
  deriving DecidableEq

/-- The module-level globals `current_model` and `current_model_info`
(api.py lines 57-59); `none` stands for `None` and for the initial empty
info dict. -/
structure ServerState (μ : Type) where
  current_model : Option μ
  current_model_info : Option ModelInfo

/-- Python truthiness of an optional string parameter (`if alias:`). -/
def strTruthy : Option String → Bool
  | none => false
  | some s => decide (s ≠ "")

/-- The (alias, version) argument pair `reload_model` passes to
`load_model_from_mlflow` (api.py lines 267-274): an explicit alias, else an
explicit version, else `current_model_info.get('model_alias', 'production')`. -/
def reloadArgs {μ : Type} (st : ServerState μ) (aliasArg version : Option String) :
    Option String × Option String :=
  if strTruthy aliasArg then (aliasArg, none)
  else if strTruthy version then (none, version)
  else
    match st.current_model_info with
    | some i => (i.model_alias, none)
    | none => (some "production", none)

inductive ReloadOutcome where
  | success (info : ModelInfo)
  | error500 (msg : String)
  deriving DecidableEq

/-- `POST /reload` (api.py lines 255-296): attempt the load and swap both
globals only on success; any exception is answered with HTTP 500 and the
globals untouched.  `loader` stands for `load_model_from_mlflow` (external
MLflow registry access). -/
def reload_model {μ : Type}
    (loader : Option String → Option String → Except String (μ × ModelInfo))
    (st : ServerState μ) (aliasArg version : Option String) :
    ServerState μ × ReloadOutcome :=
  let args := reloadArgs st aliasArg version
  match loader args.1 args.2 with
  | .ok mi => (⟨some mi.1, some mi.2⟩, .success mi.2)
  | .error e => (st, .error500 e)

/-- The JSON body of `POST /predict` (`FlightFeatures`, api.py lines 62-89). -/
structure FlightFeatures where
  airline : String
  source_city : String
  destination_city : String
  departure_time : String
  arrival_time : String
  stops : String
  flight_class : String
  duration : ℚ
  days_left : Int
  deriving DecidableEq

/-- One row of the predictions log table (api.py lines 339-345). -/
structure PredictionRecord where
  features : FlightFeatures
  predicted_price : ℚ
  model_name : String
  model_version : String
  latency_ms : ℚ
  deriving DecidableEq

/-- The response model of `POST /predict` (api.py lines 92-99). -/
structure PredictionResponse where
  predicted_price : ℚ
  model_name : String
  model_version : String
  prediction_timestamp : String
  latency_ms : ℚ
  deriving DecidableEq

inductive PredictOutcome where
  | ok (resp : PredictionResponse)
  | unavailable503
  | error500
  deriving DecidableEq

/-- The log row `predict` builds (api.py lines 339-345), with the placeholder
price the endpoint computes (line 331). -/
def predictionRecord (info : ModelInfo) (features : FlightFeatures)
    (latency_ms : ℚ) : PredictionRecord :=
  ⟨features, 5000, info.model_name, info.model_version, latency_ms⟩

/-- `POST /predict` (api.py lines 299-370): 503 when no model is loaded;
otherwise the placeholder price 5000.0 is computed, the database write is
attempted inside its own try/except whose failure is only logged, and the
response is returned either way.  `logStore` stands for the database session
(external).  A state holding a model but an empty info dict raises `KeyError`,
which the outer handler converts to HTTP 500. -/
def predictEndpoint {μ : Type} (logStore : PredictionRecord → Except String Unit)
    (st : ServerState μ) (features : FlightFeatures) (timestamp : String)
    (latency_ms : ℚ) : PredictOutcome :=
  match st.current_model with
  | none => .unavailable503
  | some _ =>
    match st.current_model_info with
    | none => .error500
    | some info =>
      let predicted_price : ℚ := 5000
      let record := predictionRecord info features latency_ms
      match logStore record with
      | .ok _ => .ok ⟨predicted_price, info.model_name, info.model_version, timestamp, latency_ms⟩
      | .error _ => .ok ⟨predicted_price, info.model_name, info.model_version, timestamp, latency_ms⟩

/-! ## Drift detection — src/monitoring/drift_detection.py -/

/-- `DriftDetector.__init__`: the reference frame loaded from parquet. -/
structure DriftDetector where
  reference_data : Df

/-- `ValueError("No common columns between reference and current data")`. -/
inductive DriftError where
  | noCommonColumns
  deriving DecidableEq

/-- The results dict `detect_drift` returns (lines 72-77). -/
structure DriftResults where
  report_path : String
  timestamp : String
  n_reference : Nat
  n_current : Nat
  deriving DecidableEq

/-- `str` of one numeric cell, for the both-to-text fallback. -/
def numToStr : Option ℚ → String
  | none => "nan"
  | some q => toString q

/-- `astype(str)` on a whole column. -/
def colAstypeStr : Column → Column
  | .num vs => .obj (vs.map numToStr)
  | .obj vs => .obj vs

def colIsNum : Column → Bool
  | .num _ => true
  | .obj _ => false

/-- `current_aligned[col].astype(reference dtype)`: a numeric target parses
each string (`parseNum` stands for Python float conversion) and fails when any
value does not parse; an object target renders numbers as text. -/
def castToDtype (parseNum : String → Option ℚ) (target c : Column) : Option Column :=
  match target, c with
  | .num _, .obj vs => (vs.mapM parseNum).map (fun qs => Column.num (qs.map some))
  | .obj _, .num vs => some (colAstypeStr (.num vs))
  | _, _ => some c

/-- The dtype-alignment loop (drift_detection.py lines 40-48) on one common
column: when dtypes differ, try casting current to the reference dtype; on
failure convert both to text. -/
def alignDtypes (parseNum : String → Option ℚ) (rc cc : Column) : Column × Column :=
  if colIsNum rc = colIsNum cc then (rc, cc)
  else
    match castToDtype parseNum rc cc with
    | some cc2 => (rc, cc2)
    | none => (colAstypeStr rc, colAstypeStr cc)

/-- `DriftDetector.detect_drift` (lines 21-79): restrict both frames to the
common columns (the Python set intersection has arbitrary order; reference
order is used here), fail when there are none, align dtypes, run the evidently
report on the aligned frames (external — nothing of it appears in the returned
dict) and return the results record.  There is no minimum-sample check. -/
def detect_drift (parseNum : String → Option ℚ) (d : DriftDetector)
    (current_data : Df) (report_path timestamp : String) :
    Except DriftError DriftResults :=
  let common_cols := (d.reference_data.cols.map Prod.fst).filter
    (fun c => (current_data.cols.lookup c).isSome)
  if common_cols.isEmpty then .error .noCommonColumns
  else
    let aligned := common_cols.map (fun c =>
      match d.reference_data.cols.lookup c, current_data.cols.lookup c with
      | some rc, some cc => (c, alignDtypes parseNum rc cc)
      | _, _ => (c, (Column.num [], Column.num [])))
    let _report := aligned
    .ok ⟨report_path, timestamp, d.reference_data.nrows, current_data.nrows⟩

inductive MonitorOutcome where
  | skipped
  | ran (r : Except DriftError DriftResults)

/-- `monitor_production_drift` (lines 82-112): with fewer than 100 recent
prediction rows it logs a warning and returns — no report, no error;
otherwise it builds the current frame (`toDf` stands for the pandas DataFrame
construction from the stored feature dicts) and runs `detect_drift`. -/
def monitor_production_drift {ρ : Type} (parseNum : String → Option ℚ)
    (toDf : List ρ → Df) (detector : DriftDetector) (predictions : List ρ)
    (report_path timestamp : String) : MonitorOutcome :=
  if predictions.length < 100 then .skipped
  else .ran (detect_drift parseNum detector (toDf predictions) report_path timestamp)

/-! ## Concrete instances used by witnesses and counterexamples -/

/-- A small fully trained ensemble over a trivial input type. -/
def emDemo : EnsembleModel Unit :=
  { models := [("random_forest", ⟨true, fun _ => [1, 2]⟩),
               ("xgboost", ⟨true, fun _ => [10, 20]⟩),
               ("lightgbm", ⟨true, fun _ => [100, 200]⟩)],
    weights := [("random_forest", 1/2), ("xgboost", 1/4), ("lightgbm", 1/4)] }

/-- The metric-name list the training pipeline logs (ensemble first, then the
three per-sub-model triples). -/
def trainMetricKeys : List String :=
  ["mae", "rmse", "r2_score", "mape",
   "random_forest_mae", "random_forest_rmse", "random_forest_r2",
   "xgboost_mae", "xgboost_rmse", "xgboost_r2",
   "lightgbm_mae", "lightgbm_rmse", "lightgbm_r2"]

/-- A registry double whose alias assignment silently has no effect: after
`set_registered_model_alias`, the alias still resolves to version "2". -/
def stubClient : MlflowClientOps Unit :=
  { get_model_version := fun _ _ v => .ok ⟨v, "run7", "READY"⟩,
    set_registered_model_alias := fun _ _ _ _ => .ok (),
    get_model_version_by_alias := fun _ _ _ => .ok ⟨"2", "run7", "READY"⟩ }

/-- A 3-row reference frame for drift detection. -/
def refFrame : Df := ⟨3, [("price", Column.num [some 1, some 2, some 3])]⟩

/-- A 50-row current frame — below the 100-row monitoring floor. -/
def curFrame : Df := ⟨50, [("price", Column.num (List.replicate 50 (some 5)))]⟩

/-- A loaded model's metadata. -/
def infoDemo : ModelInfo :=
  ⟨"FlightPricePredictor", "3", some "production", "t0", "ensemble"⟩

/-- The spec's example prediction payload. -/
def featDemo : FlightFeatures :=
  ⟨"SpiceJet", "Delhi", "Mumbai", "Evening", "Night", "zero", "Economy", 217/100, 1⟩

/-- A data config: target `price`, one numerical feature. -/
def cfgDemo : DataConfig := ⟨"price", ["duration"]⟩

/-- The processor state before any fit. -/
def procStateEmpty : ProcState := ⟨none, []⟩

/-- A 2-row training frame with one categorical column, one numeric column and
the target. -/
def dfTrainDemo : Df :=
  ⟨2, [("airline", Column.obj ["AirIndia", "SpiceJet"]),
       ("duration", Column.num [some 1, some 2]),
       ("price", Column.num [some 10, some 20])]⟩

/-- A 1-row serving frame missing the `duration` column. -/
def dfServeDemo : Df := ⟨1, [("airline", Column.obj ["SpiceJet"])]⟩

/-- A fitted processor state whose encoders cover `airline` but not `color`. -/
def stC10 : ProcState :=
  ⟨some ["airline", "color"], [("airline", ⟨["AirIndia", "SpiceJet"]⟩)]⟩

/-- A 1-row serving frame with an object column nothing was fitted for. -/
def dfC10 : Df := ⟨1, [("airline", Column.obj ["SpiceJet"]), ("color", Column.obj ["red"])]⟩

/-! ## Theorems -/

theorem getD_zipWith_add (a b : List ℚ) (i : Nat) (ha : i < a.length) (hb : i < b.length) :
    (List.zipWith (· + ·) a b).getD i 0 = a.getD i 0 + b.getD i 0 := by
  induction a generalizing b i with
  | nil => simp at ha
  | cons x xs ih =>
    cases b with
    | nil => simp at hb
    | cons y ys =>
      cases i with
      | zero => simp
      | succ j =>
        simp only [List.zipWith_cons_cons, List.getD_cons_succ]
        exact ih ys j (by simpa using ha) (by simpa using hb)

theorem getD_map_mul (w : ℚ) (p : List ℚ) (i : Nat) (h : i < p.length) :
    (p.map (fun x => w * x)).getD i 0 = w * p.getD i 0 := by
  induction p generalizing i with
  | nil => simp at h
  | cons x xs ih =>
    cases i with
    | zero => simp
    | succ j =>
      simp only [List.map_cons, List.getD_cons_succ]
      exact ih j (by simpa using h)

/-- C1: for a trained ensemble holding the three sub-models
`random_forest`, `xgboost`, `lightgbm` (each fitted, predictions of equal
length, each name weighted in the config), `EnsembleModel.predict` returns
exactly the weighted sum over sub-model names of `weights[name]` times that
sub-model's prediction, pointwise. -/
theorem ensemblePredict_weighted_sum {α : Type}
    (m1 m2 m3 : SubModel α) (weights : List (String × ℚ)) (w1 w2 w3 : ℚ) (X : α)
    (hf1 : m1.fitted = true) (hf2 : m2.fitted = true) (hf3 : m3.fitted = true)
    (hw1 : weights.lookup "random_forest" = some w1)
    (hw2 : weights.lookup "xgboost" = some w2)
    (hw3 : weights.lookup "lightgbm" = some w3)
    (hl2 : (m2.predict X).length = (m1.predict X).length)
    (hl3 : (m3.predict X).length = (m1.predict X).length) :
    ∃ r, ensemblePredict ⟨[("random_forest", m1), ("xgboost", m2), ("lightgbm", m3)], weights⟩ X
        = .ok r
      ∧ r.length = (m1.predict X).length
      ∧ ∀ i, i < r.length →
          r.getD i 0 = w1 * ((m1.predict X).getD i 0) + w2 * ((m2.predict X).getD i 0)
            + w3 * ((m3.predict X).getD i 0) := by
  have hz : List.zipWith (· + ·) (List.map (fun _ => (0 : ℚ)) (m1.predict X))
      (List.map (fun x => w1 * x) (m1.predict X)) = List.map (fun x => w1 * x) (m1.predict X) := by
    have : ∀ (p q : List ℚ), p.length = q.length →
        List.zipWith (· + ·) (List.map (fun _ => (0 : ℚ)) p) q = q := by
      intro p
      induction p with
      | nil => intro q hq; cases q <;> simp_all
      | cons x xs ih =>
        intro q hq
        cases q with
        | nil => simp at hq
        | cons y ys => simpa using ih ys (by simpa using hq)
    exact this _ _ (by simp)
  simp only [ensemblePredict, gatherPredictions, subPredict, hf1, hf2, hf3, if_true,
    dictLookup, weightedFold, vecAdd, List.lookup, beq_self_eq_true, hw1, hw2, hw3,
    bind, Except.bind, List.length_map, List.length_zipWith, hl2, hl3, Nat.min_self,
    if_true, hz]
  refine ⟨_, rfl, ?_, ?_⟩
  · simp [List.length_zipWith, List.length_map, hl2, hl3]
  · intro i hi
    have h1 : i < (m1.predict X).length := by
      simpa [List.length_zipWith, List.length_map, hl2, hl3] using hi
    rw [getD_zipWith_add, getD_zipWith_add, getD_map_mul, getD_map_mul, getD_map_mul] <;>
      simp [List.length_zipWith, List.length_map, hl2, hl3, h1]

/-- C1 witness: the weighted-sum theorem applied to `emDemo` at the concrete
input `()`. -/
theorem ensemblePredict_weighted_sum_witness :
    ∃ r, ensemblePredict emDemo () = .ok r
      ∧ r.length = 2
      ∧ ∀ i, i < r.length →
          r.getD i 0 = 1/2 * (([1, 2] : List ℚ).getD i 0) + 1/4 * (([10, 20] : List ℚ).getD i 0)
            + 1/4 * (([100, 200] : List ℚ).getD i 0) := by
  have h := ensemblePredict_weighted_sum (α := Unit) ⟨true, fun _ => [1, 2]⟩
    ⟨true, fun _ => [10, 20]⟩ ⟨true, fun _ => [100, 200]⟩
    [("random_forest", 1/2), ("xgboost", 1/4), ("lightgbm", 1/4)] (1/2) (1/4) (1/4) ()
    rfl rfl rfl rfl rfl rfl rfl rfl
  simpa [emDemo] using h

theorem gatherPredictions_unfitted_error {α : Type} (ms : List (String × SubModel α)) (X : α)
    (h : ∃ p ∈ ms, p.2.fitted = false) :
    ∃ er, gatherPredictions ms X = .error er := by
  induction ms with
  | nil => simp at h
  | cons hd tl ih =>
    by_cases hf : hd.2.fitted = false
    · exact ⟨.notFittedError, by simp [gatherPredictions, subPredict, hf, bind, Except.bind]⟩
    · have hfit : hd.2.fitted = true := by simpa using hf
      obtain ⟨p, hp, hpf⟩ := h
      rcases List.mem_cons.mp hp with rfl | hmem
      · exact absurd hpf hf
      · obtain ⟨er, her⟩ := ih ⟨p, hmem, hpf⟩
        exact ⟨er, by simp [gatherPredictions, subPredict, hfit, her, bind, Except.bind]⟩

/-- C2 (amended): an ensemble whose `build_models` was never called (empty
model dict) or holding an unfitted sub-model never lets `predict` return a
result — the call raises (a `KeyError` or sklearn's not-fitted error, not an
error named `ModelNotReady`), and in particular never silently returns
zeros. -/
theorem ensemblePredict_untrained_errors {α : Type} (e : EnsembleModel α) (X : α)
    (h : e.models = [] ∨ ∃ p ∈ e.models, p.2.fitted = false) :
    ∃ err, ensemblePredict e X = .error err := by
  rcases h with hnil | hunfit
  · exact ⟨.keyError "random_forest",
      by simp [ensemblePredict, hnil, gatherPredictions, dictLookup, List.lookup, bind,
        Except.bind]⟩
  · obtain ⟨er, her⟩ := gatherPredictions_unfitted_error e.models X hunfit
    exact ⟨er, by simp [ensemblePredict, her, bind, Except.bind]⟩

/-- C2 witness: the amended theorem applied to a concrete ensemble holding a
single unfitted sub-model. -/
theorem ensemblePredict_untrained_errors_witness :
    ∃ err, ensemblePredict
      (⟨[("random_forest", ⟨false, fun _ => []⟩)], []⟩ : EnsembleModel Unit) () = .error err :=
  ensemblePredict_untrained_errors _ ()
    (Or.inr ⟨("random_forest", ⟨false, fun _ => []⟩), by simp, rfl⟩)

/-- C2 counterexample: an ensemble on which `build_models` was never called
fails with `KeyError('random_forest')`, which is not the `ModelNotReady`
error the claim names — no code path produces `ModelNotReady`. -/
theorem ensemblePredict_unbuilt_not_modelNotReady :
    ensemblePredict (⟨[], []⟩ : EnsembleModel Unit) () = .error (.keyError "random_forest")
      ∧ PredError.keyError "random_forest" ≠ PredError.modelNotReady :=
  ⟨rfl, by decide⟩

/-- C6: `validate_model` passes if and only if every metric present in the
run's record among `r2_score`, `rmse` and `mape` satisfies its bound
(`r2_score >= min_r2`, `rmse <= max_rmse`, `mape <= max_mape`); absent metrics
are skipped rather than failing; and every present check is evaluated and
recorded in the results whatever the other checks did (no short-circuit). -/
theorem validateThresholds_spec (metrics : List (String × ℚ)) (t : Thresholds) :
    ((validateThresholds metrics t).1 = true ↔
      ((∀ v, metrics.lookup "r2_score" = some v → v ≥ t.min_r2)
        ∧ (∀ v, metrics.lookup "rmse" = some v → v ≤ t.max_rmse)
        ∧ (∀ v, metrics.lookup "mape" = some v → v ≤ t.max_mape)))
    ∧ (∀ v, metrics.lookup "r2_score" = some v →
        (validateThresholds metrics t).2.lookup "r2_score"
          = some ⟨v, t.min_r2, decide (v ≥ t.min_r2)⟩)
    ∧ (∀ v, metrics.lookup "rmse" = some v →
        (validateThresholds metrics t).2.lookup "rmse"
          = some ⟨v, t.max_rmse, decide (v ≤ t.max_rmse)⟩)
    ∧ (∀ v, metrics.lookup "mape" = some v →
        (validateThresholds metrics t).2.lookup "mape"
          = some ⟨v, t.max_mape, decide (v ≤ t.max_mape)⟩) := by
  cases hr : metrics.lookup "r2_score" <;>
    cases hm : metrics.lookup "rmse" <;>
      cases hp : metrics.lookup "mape" <;>
        simp [validateThresholds, hr, hm, hp, List.lookup, and_assoc]

/-- C7 counterexample: against a registry whose alias assignment silently has
no effect, `promote_model` still reports success although the alias resolves
to version "2" while version "1" was requested — there is no
`PromotionVerificationFailed` error and no comparison after the re-read. -/
theorem promote_model_reports_success_on_mismatch :
    (promote_model stubClient () "FlightPricePredictor" "1" "production" false
        (fun _ => .ok ())).2 = .success
      ∧ stubClient.get_model_version_by_alias () "FlightPricePredictor" "production"
          = .ok ⟨"2", "run7", "READY"⟩
      ∧ ("2" : String) ≠ "1" :=
  ⟨rfl, rfl, by decide⟩

/-- C7 (amended): after setting the alias, `promote_model` re-reads the alias
but only logs the resolved version — whenever the version lookup, the alias
assignment and the re-read succeed, the promotion reports success whatever
version the alias resolves to (and whatever the optional reload notification
does); no `PromotionVerificationFailed` error exists in the code. -/
theorem promote_model_success_ignores_resolved_version {σ : Type}
    (client : MlflowClientOps σ) (st st1 : σ)
    (model_name version aliasName : String) (reload_app : Bool)
    (postReload : σ → Except String Unit) (mv av : VersionInfo)
    (h1 : client.get_model_version st model_name version = .ok mv)
    (h2 : client.set_registered_model_alias st model_name aliasName version = .ok st1)
    (h3 : client.get_model_version_by_alias st1 model_name aliasName = .ok av) :
    promote_model client st model_name version aliasName reload_app postReload
      = (st1, .success) := by
  simp only [promote_model, h1, h2, h3]
  cases reload_app with
  | false => simp
  | true =>
    simp only [if_true]
    cases postReload st1 <;> simp

/-- C7 witness: the amended theorem at the concrete no-op registry, with a
failing reload notification that is swallowed as the code's comment says. -/
theorem promote_model_success_ignores_resolved_version_witness :
    promote_model stubClient () "FlightPricePredictor" "1" "production" true
      (fun _ => .error "connection refused") = ((), .success) :=
  promote_model_success_ignores_resolved_version stubClient () ()
    "FlightPricePredictor" "1" "production" true (fun _ => .error "connection refused")
    ⟨"1", "run7", "READY"⟩ ⟨"2", "run7", "READY"⟩ rfl rfl rfl

/-- C8 counterexample: on a 50-row current dataset (fewer than 100 records)
sharing a column with the reference, `DriftDetector.detect_drift` succeeds and
produces a report — no `InsufficientSamples` error; and
`monitor_production_drift` with 50 rows returns silently (`.skipped`), raising
nothing. -/
theorem detect_drift_below_min_sample_report :
    curFrame.nrows < 100
      ∧ detect_drift (fun _ => none) ⟨refFrame⟩ curFrame "reports/r.html" "t0"
          = .ok ⟨"reports/r.html", "t0", 3, 50⟩
      ∧ monitor_production_drift (fun _ => none) (fun _ => curFrame) ⟨refFrame⟩
          (List.replicate 50 ()) "reports/r.html" "t0" = .skipped :=
  ⟨by decide, rfl, rfl⟩

/-- C8 (amended): `DriftDetector.detect_drift` has no minimum-sample check —
with at least one common column it returns a report whatever the current
size — while `monitor_production_drift` with fewer than 100 recent prediction
rows produces no report and returns without error (a warning is logged), not
an `InsufficientSamples` failure. -/
theorem drift_small_sample_behaviour {ρ : Type} (parseNum : String → Option ℚ)
    (toDf : List ρ → Df) (d : DriftDetector) (current : Df) (preds : List ρ)
    (rp ts : String)
    (hc : ((d.reference_data.cols.map Prod.fst).filter
        (fun c => (current.cols.lookup c).isSome)).isEmpty = false)
    (hn : preds.length < 100) :
    detect_drift parseNum d current rp ts
        = .ok ⟨rp, ts, d.reference_data.nrows, current.nrows⟩
      ∧ monitor_production_drift parseNum toDf d preds rp ts = .skipped := by
  constructor
  · simp [detect_drift, hc]
  · simp [monitor_production_drift, hn]

/-- C8 witness: the amended theorem at the concrete small frames. -/
theorem drift_small_sample_behaviour_witness :
    detect_drift (fun _ => none) ⟨refFrame⟩ curFrame "reports/w.html" "t1"
        = .ok ⟨"reports/w.html", "t1", 3, 50⟩
      ∧ monitor_production_drift (fun _ => none) (fun _ => curFrame) ⟨refFrame⟩
          (List.replicate 7 ()) "reports/w.html" "t1" = .skipped := by
  have h := drift_small_sample_behaviour (ρ := Unit) (fun _ => none) (fun _ => curFrame)
    ⟨refFrame⟩ curFrame (List.replicate 7 ()) "reports/w.html" "t1" (by decide) (by decide)
  simpa [refFrame, curFrame] using h

/-- C9 (amended): for every training run on the three-sub-model ensemble, the
pipeline logs MAE, RMSE, R² and MAPE for the ensemble, but for each sub-model
only `{name}_mae`, `{name}_rmse` and `{name}_r2` — no per-sub-model MAPE is
computed. -/
theorem trainLoggedMetrics_keys {α : Type} (sqrtFn : ℚ → ℚ)
    (m1 m2 m3 : SubModel α) (weights : List (String × ℚ)) (X : α) (y : List ℚ)
    (hf1 : m1.fitted = true) (hf2 : m2.fitted = true) (hf3 : m3.fitted = true)
    (hok : ∃ yp, ensemblePredict
      ⟨[("random_forest", m1), ("xgboost", m2), ("lightgbm", m3)], weights⟩ X = .ok yp) :
    ∃ l, trainLoggedMetrics sqrtFn
        ⟨[("random_forest", m1), ("xgboost", m2), ("lightgbm", m3)], weights⟩ X y = .ok l
      ∧ l.map Prod.fst = trainMetricKeys
      ∧ "random_forest_mape" ∉ trainMetricKeys
      ∧ "xgboost_mape" ∉ trainMetricKeys
      ∧ "lightgbm_mape" ∉ trainMetricKeys := by
  obtain ⟨yp, hok⟩ := hok
  simp only [trainLoggedMetrics, evaluate_model, individualMetrics, subPredict,
    hf1, hf2, hf3, if_true, hok, bind, Except.bind]
  refine ⟨_, rfl, rfl, by decide, by decide, by decide⟩

/-- C9 witness: the amended theorem at the concrete trained ensemble. -/
theorem trainLoggedMetrics_keys_witness :
    ∃ l, trainLoggedMetrics id emDemo () [1, 2] = .ok l
      ∧ l.map Prod.fst = trainMetricKeys
      ∧ "random_forest_mape" ∉ trainMetricKeys
      ∧ "xgboost_mape" ∉ trainMetricKeys
      ∧ "lightgbm_mape" ∉ trainMetricKeys := by
  have h := trainLoggedMetrics_keys (α := Unit) id ⟨true, fun _ => [1, 2]⟩
    ⟨true, fun _ => [10, 20]⟩ ⟨true, fun _ => [100, 200]⟩
    [("random_forest", 1/2), ("xgboost", 1/4), ("lightgbm", 1/4)] () [1, 2]
    rfl rfl rfl ⟨_, rfl⟩
  simpa [emDemo] using h

/-- C9 counterexample: a concrete training run logs `mape` for the ensemble
but no `random_forest_mape` — the claim that all four metrics are computed for
each sub-model fails. -/
theorem trainLoggedMetrics_no_submodel_mape :
    ∃ l, trainLoggedMetrics id emDemo () [1, 2] = .ok l
      ∧ l.map Prod.fst = trainMetricKeys
      ∧ "mape" ∈ trainMetricKeys
      ∧ "random_forest_mape" ∉ trainMetricKeys := by
  refine ⟨_, rfl, rfl, by decide, by decide⟩

/-- C4: when the model load requested by `/reload` fails (whatever the alias
and version arguments resolve to), the endpoint answers HTTP 500 and both the
active model and its metadata are exactly the prior state — a service that
once loaded a model keeps it. -/
theorem reload_model_failure_keeps_state {μ : Type}
    (loader : Option String → Option String → Except String (μ × ModelInfo))
    (st : ServerState μ) (aliasArg version : Option String) (e : String)
    (h : loader (reloadArgs st aliasArg version).1 (reloadArgs st aliasArg version).2
      = .error e) :
    reload_model loader st aliasArg version = (st, .error500 e) := by
  simp [reload_model, h]

/-- C4 witness: the theorem at a concrete loaded state and a loader that
fails. -/
theorem reload_model_failure_keeps_state_witness :
    reload_model (fun _ _ => .error "mlflow unreachable")
      (⟨some (), some infoDemo⟩ : ServerState Unit) (some "staging") none
      = (⟨some (), some infoDemo⟩, .error500 "mlflow unreachable") :=
  reload_model_failure_keeps_state _ _ _ _ _ rfl

/-- C5: with a model loaded, a failing log-store write on `/predict` is caught
inside its own handler and the response is still returned successfully with
the computed price (the source's placeholder 5000.0). -/
theorem predict_log_failure_still_ok {μ : Type}
    (logStore : PredictionRecord → Except String Unit) (m : μ) (info : ModelInfo)
    (features : FlightFeatures) (ts : String) (lat : ℚ) (e : String)
    (h : logStore (predictionRecord info features lat) = .error e) :
    predictEndpoint logStore (⟨some m, some info⟩ : ServerState μ) features ts lat
      = .ok ⟨5000, info.model_name, info.model_version, ts, lat⟩ := by
  simp [predictEndpoint, h]

/-- C5 witness: the theorem at the spec's example payload with a log store
that always fails. -/
theorem predict_log_failure_still_ok_witness :
    predictEndpoint (fun _ => .error "db down")
      (⟨some (), some infoDemo⟩ : ServerState Unit) featDemo "t1" 2
      = .ok ⟨5000, "FlightPricePredictor", "3", "t1", 2⟩ := by
  have h := predict_log_failure_still_ok (fun _ => .error "db down") () infoDemo
    featDemo "t1" 2 "db down" rfl
  simpa [infoDemo] using h

theorem lookup_none_iff_not_mem_keys (cols : List (String × Column)) (c : String) :
    cols.lookup c = none ↔ c ∉ cols.map Prod.fst := by
  induction cols with
  | nil => simp [List.lookup]
  | cons hd tl ih =>
    by_cases h : c = hd.1
    · subst h
      simp [List.lookup]
    · have hb : (c == hd.1) = false := by simpa using h
      simp [List.lookup, hb, ih, h, Ne.symm h]

theorem lookup_map_snd (cols : List (String × Column)) (h : String → Column → Column)
    (k : String) :
    (cols.map (fun p => (p.1, h p.1 p.2))).lookup k = (cols.lookup k).map (h k) := by
  induction cols with
  | nil => simp [List.lookup]
  | cons hd tl ih =>
    by_cases hk : k = hd.1
    · subst hk
      simp [List.lookup]
    · have hb : (k == hd.1) = false := by simpa using hk
      simp [List.lookup, hb, ih]

theorem map_fst_map_snd (cols : List (String × Column)) (h : String → Column → Column) :
    (cols.map (fun p => (p.1, h p.1 p.2))).map Prod.fst = cols.map Prod.fst := by
  induction cols with
  | nil => rfl
  | cons hd tl ih => simp [ih]

theorem fillnaFold_names (ns : List String) (cols : List (String × Column)) :
    (ns.foldl (fun cols c =>
      cols.map (fun p => (p.1, if p.1 = c then fillnaCol p.2 else p.2))) cols).map Prod.fst
        = cols.map Prod.fst := by
  induction ns generalizing cols with
  | nil => rfl
  | cons n ns ih =>
    simp only [List.foldl_cons]
    rw [ih]
    exact map_fst_map_snd cols fun k v => if k = n then fillnaCol v else v

theorem fillnaStep_names (cfg : DataConfig) (df : Df) :
    (fillnaStep cfg df).cols.map Prod.fst = df.cols.map Prod.fst :=
  fillnaFold_names cfg.numerical df.cols

theorem fillnaFold_lookup_obj (ns : List String) (cols : List (String × Column))
    (c : String) (vs : List String) (h : cols.lookup c = some (.obj vs)) :
    (ns.foldl (fun cols c =>
      cols.map (fun p => (p.1, if p.1 = c then fillnaCol p.2 else p.2))) cols).lookup c
        = some (.obj vs) := by
  induction ns generalizing cols with
  | nil => exact h
  | cons n ns ih =>
    simp only [List.foldl_cons]
    refine ih _ ?_
    have h2 : List.lookup c
        (List.map (fun p => (p.1, if p.1 = n then fillnaCol p.2 else p.2)) cols)
          = (List.lookup c cols).map (fun v => if c = n then fillnaCol v else v) :=
      lookup_map_snd cols (fun k v => if k = n then fillnaCol v else v) c
    rw [h2, h]
    by_cases hc : c = n <;> simp [hc, fillnaCol]

theorem fillnaStep_lookup_obj (cfg : DataConfig) (df : Df) (c : String) (vs : List String)
    (h : df.cols.lookup c = some (.obj vs)) :
    (fillnaStep cfg df).cols.lookup c = some (.obj vs) :=
  fillnaFold_lookup_obj cfg.numerical df.cols c vs h

theorem encodeCols_names (fit : Bool) (n : Nat) (encs : List (String × LabelEncoder))
    (cols : List (String × Column)) :
    (encodeCols fit n encs cols).2.map Prod.fst = cols.map Prod.fst := by
  induction cols generalizing encs with
  | nil => rfl
  | cons hd tl ih => simp [encodeCols, ih]

theorem encodeOne_false_state (n : Nat) (encs : List (String × LabelEncoder))
    (name : String) (c : Column) : (encodeOne false n encs name c).1 = encs := by
  cases c with
  | num vs => rfl
  | obj vs =>
    simp only [encodeOne, Bool.false_eq_true, if_false]
    cases encs.lookup name <;> rfl

theorem encodeCols_false_lookup (n : Nat) (encs : List (String × LabelEncoder))
    (cols : List (String × Column)) (c : String) :
    (encodeCols false n encs cols).2.lookup c
      = (cols.lookup c).map (fun col => (encodeOne false n encs c col).2) := by
  induction cols with
  | nil => simp [encodeCols, List.lookup]
  | cons hd tl ih =>
    obtain ⟨k, col⟩ := hd
    by_cases hk : c = k
    · subst hk
      simp [encodeCols, List.lookup, encodeOne_false_state]
    · have hb : (c == k) = false := by simpa using hk
      simp [encodeCols, List.lookup, hb, encodeOne_false_state, ih]

theorem dropTarget_nrows (cfg : DataConfig) (df : Df) :
    (dropTarget cfg df).1.nrows = df.nrows := by
  unfold dropTarget
  cases df.cols.lookup cfg.target <;> rfl

theorem lookup_filter_ne (cols : List (String × Column)) (tname c : String)
    (h : c ≠ tname) :
    (cols.filter (fun p => decide (p.1 ≠ tname))).lookup c = cols.lookup c := by
  induction cols with
  | nil => rfl
  | cons hd tl ih =>
    obtain ⟨k, v⟩ := hd
    rw [List.filter_cons]
    by_cases ht : k = tname
    · have hb : (c == k) = false := by
        subst ht
        simpa using h
      have hdec : (decide ((k, v).1 ≠ tname)) = false := by simpa using ht
      rw [hdec]
      simpa [List.lookup, hb] using ih
    · have hdec : (decide ((k, v).1 ≠ tname)) = true := by simpa using ht
      rw [hdec]
      by_cases hc : c = k
      · subst hc
        simp [List.lookup]
      · have hb : (c == k) = false := by simpa using hc
        simpa [List.lookup, hb] using ih

theorem dropTarget_lookup (cfg : DataConfig) (df : Df) (c : String) (h : c ≠ cfg.target) :
    (dropTarget cfg df).1.cols.lookup c = df.cols.lookup c := by
  unfold dropTarget
  cases hdt : df.cols.lookup cfg.target with
  | none => rfl
  | some tcol => exact lookup_filter_ne df.cols cfg.target c h

theorem lookup_append_cols (l1 l2 : List (String × Column)) (k : String) :
    (l1 ++ l2).lookup k = (l1.lookup k).or (l2.lookup k) := by
  induction l1 with
  | nil => simp [List.lookup]
  | cons hd tl ih =>
    obtain ⟨a, b⟩ := hd
    by_cases hk : k = a
    · subst hk
      simp [List.lookup]
    · have hb : (k == a) = false := by simpa using hk
      simp [List.lookup, hb, ih]

theorem lookup_map_const_col (ms : List String) (z : Column) (c : String) (h : c ∈ ms) :
    (ms.map (fun x => (x, z))).lookup c = some z := by
  induction ms with
  | nil => simp at h
  | cons m s ih =>
    by_cases hc : c = m
    · subst hc
      simp [List.lookup]
    · have hb : (c == m) = false := by simpa using hc
      rcases List.mem_cons.mp h with h1 | h2
      · exact absurd h1 hc
      · simp [List.lookup, hb, ih h2]

theorem lookup_padMissing (names : List String) (df : Df) (c : String) (h : c ∈ names) :
    (padMissing names df).cols.lookup c
      = some ((df.cols.lookup c).getD (Column.num (List.replicate df.nrows (some 0)))) := by
  unfold padMissing
  rw [lookup_append_cols]
  cases hdf : df.cols.lookup c with
  | some v => simp
  | none =>
    have hmem : c ∈ names.filter (fun x => (df.cols.lookup x).isNone) := by
      simp [List.mem_filter, h, hdf]
    simp [lookup_map_const_col _ _ _ hmem]

theorem lookup_map_pair (names : List String) (g : String → Column) (k : String)
    (h : k ∈ names) :
    (names.map (fun c => (c, g c))).lookup k = some (g k) := by
  induction names with
  | nil => simp at h
  | cons n ns ih =>
    by_cases hk : k = n
    · subst hk
      simp [List.lookup]
    · have hb : (k == n) = false := by simpa using hk
      rcases List.mem_cons.mp h with h1 | h2
      · exact absurd h1 hk
      · simp [List.lookup, hb, ih h2]

theorem selectCols_of_lookup (df2 : Df) (names : List String) (g : String → Column)
    (h : ∀ c ∈ names, df2.cols.lookup c = some (g c)) :
    selectCols df2 names = .ok (names.map (fun c => (c, g c))) := by
  induction names with
  | nil => rfl
  | cons n ns ih =>
    have hn := h n (by simp)
    simp only [selectCols, hn, ih (fun c hc => h c (List.mem_cons_of_mem _ hc)),
      Except.map, List.map_cons]

/-- C3: for every DataFrame preprocessed with `fit=False` after a prior
`fit=True` call, the resulting feature frame has exactly the columns recorded
at fit time, in the same order and count, and any column missing from the
(target-stripped) input is filled with zero for every row. -/
theorem preprocess_fit_false_schema (cfg : DataConfig) (st0 st1 st2 : ProcState)
    (df0 df f0 frame : Df) (t0 tgt : Option Column) (names : List String)
    (h1 : preprocessFrame cfg st0 df0 true = .ok (st1, f0, t0))
    (h2 : st1.feature_names = some names)
    (h3 : preprocessFrame cfg st1 df false = .ok (st2, frame, tgt)) :
    frame.cols.map Prod.fst = names
      ∧ frame.nrows = df.nrows
      ∧ ∀ c ∈ names, (dropTarget cfg df).1.cols.lookup c = none →
        frame.cols.lookup c = some (Column.num (List.replicate df.nrows (some 0))) := by
  have hnr2 : (fillnaStep cfg (dropTarget cfg df).1).nrows = df.nrows := by
    simpa [fillnaStep] using dropTarget_nrows cfg df
  set dt := dropTarget cfg df with hdt
  set df2 := fillnaStep cfg dt.1 with hdf2
  set enc := encodeCols false df2.nrows st1.label_encoders df2.cols with henc
  set df3 : Df := ⟨df2.nrows, enc.2⟩ with hdf3
  have hkeys : df3.cols.map Prod.fst = dt.1.cols.map Prod.fst := by
    rw [hdf3]
    show enc.2.map Prod.fst = dt.1.cols.map Prod.fst
    rw [henc, encodeCols_names, hdf2, fillnaStep_names]
  have hsel : selectColumns names (padMissing names df3)
      = .ok ⟨df3.nrows, names.map (fun c =>
          (c, (df3.cols.lookup c).getD (Column.num (List.replicate df3.nrows (some 0)))))⟩ := by
    unfold selectColumns
    rw [selectCols_of_lookup (padMissing names df3) names
      (fun c => (df3.cols.lookup c).getD (Column.num (List.replicate df3.nrows (some 0))))
      (fun c hc => lookup_padMissing names df3 c hc)]
    rfl
  rw [preprocessFrame] at h3
  simp only [Bool.false_eq_true, if_false, h2] at h3
  rw [← hdt, ← hdf2, ← henc, ← hdf3] at h3
  rw [hsel] at h3
  simp only [Except.map, Except.ok.injEq, Prod.mk.injEq] at h3
  obtain ⟨-, hframe, -⟩ := h3
  refine ⟨?_, ?_, ?_⟩
  · rw [← hframe, List.map_map]
    exact List.map_id names
  · rw [← hframe]
    exact hnr2
  · intro c hc hnone
    have hn3 : List.lookup c enc.2 = none := by
      rw [lookup_none_iff_not_mem_keys]
      have hk2 : List.map Prod.fst enc.2 = List.map Prod.fst dt.1.cols := hkeys
      rw [hk2, ← lookup_none_iff_not_mem_keys]
      exact hnone
    rw [← hframe]
    rw [lookup_map_pair names _ c hc]
    rw [hn3]
    simp [hnr2]

/-- C10: in `preprocess` with `fit=False`, an object-typed input column for
which no encoder was stored at fit time is replaced in its entirety by the
constant 0 for every row — it is not encoded, not mapped to the -1
unseen-value sentinel, and no error is raised. -/
theorem preprocess_no_encoder_zero_column (cfg : DataConfig) (st st2 : ProcState)
    (df frame : Df) (tgt : Option Column) (names : List String) (c : String)
    (vs : List String)
    (hn : st.feature_names = some names)
    (hobj : df.cols.lookup c = some (.obj vs))
    (hct : c ≠ cfg.target)
    (hnoenc : st.label_encoders.lookup c = none)
    (hmem : c ∈ names)
    (h3 : preprocessFrame cfg st df false = .ok (st2, frame, tgt)) :
    frame.cols.lookup c = some (Column.num (List.replicate df.nrows (some 0))) := by
  have hnr2 : (fillnaStep cfg (dropTarget cfg df).1).nrows = df.nrows := by
    simpa [fillnaStep] using dropTarget_nrows cfg df
  set dt := dropTarget cfg df with hdt
  set df2 := fillnaStep cfg dt.1 with hdf2
  set enc := encodeCols false df2.nrows st.label_encoders df2.cols with henc2
  set df3 : Df := ⟨df2.nrows, enc.2⟩ with hdf3
  have hdtl : dt.1.cols.lookup c = some (.obj vs) := by
    rw [hdt, dropTarget_lookup cfg df c hct]
    exact hobj
  have hdf2l : df2.cols.lookup c = some (.obj vs) := by
    rw [hdf2]
    exact fillnaStep_lookup_obj cfg dt.1 c vs hdtl
  have hdf3l : List.lookup c enc.2 = some (Column.num (List.replicate df2.nrows (some 0))) := by
    rw [henc2, encodeCols_false_lookup, hdf2l]
    simp [encodeOne, hnoenc]
  have hsel : selectColumns names (padMissing names df3)
      = .ok ⟨df3.nrows, names.map (fun x =>
          (x, (df3.cols.lookup x).getD (Column.num (List.replicate df3.nrows (some 0)))))⟩ := by
    unfold selectColumns
    rw [selectCols_of_lookup (padMissing names df3) names
      (fun x => (df3.cols.lookup x).getD (Column.num (List.replicate df3.nrows (some 0))))
      (fun x hx => lookup_padMissing names df3 x hx)]
    rfl
  rw [preprocessFrame] at h3
  simp only [Bool.false_eq_true, if_false, hn] at h3
  rw [← hdt, ← hdf2, ← henc2, ← hdf3, hsel] at h3
  simp only [Except.map, Except.ok.injEq, Prod.mk.injEq] at h3
  obtain ⟨-, hframe, -⟩ := h3
  rw [← hframe, lookup_map_pair names _ c hmem]
  have : List.lookup c df3.cols = some (Column.num (List.replicate df2.nrows (some 0))) := hdf3l
  rw [this]
  simp [hnr2]

/-- C3 witness: the schema theorem across a concrete fit/transform pair in
which the serving frame is missing the `duration` column. -/
theorem preprocess_fit_false_schema_witness :
    ∃ st1 st2 f0 frame t0 tgt,
      preprocessFrame cfgDemo procStateEmpty dfTrainDemo true = .ok (st1, f0, t0)
      ∧ st1.feature_names = some ["airline", "duration"]
      ∧ preprocessFrame cfgDemo st1 dfServeDemo false = .ok (st2, frame, tgt)
      ∧ frame.cols.map Prod.fst = ["airline", "duration"]
      ∧ frame.nrows = dfServeDemo.nrows
      ∧ ∀ c ∈ ["airline", "duration"],
          (dropTarget cfgDemo dfServeDemo).1.cols.lookup c = none →
          frame.cols.lookup c
            = some (Column.num (List.replicate dfServeDemo.nrows (some 0))) := by
  refine ⟨_, _, _, _, _, _, rfl, rfl, rfl, ?_⟩
  have h := preprocess_fit_false_schema cfgDemo procStateEmpty _ _ dfTrainDemo dfServeDemo
    _ _ _ _ ["airline", "duration"] rfl rfl rfl
  exact ⟨h.1, h.2.1, h.2.2⟩

/-- C10 witness: the theorem at a concrete state whose encoders do not cover
the `color` column. -/
theorem preprocess_no_encoder_zero_column_witness :
    ∃ st2 frame tgt,
      preprocessFrame cfgDemo stC10 dfC10 false = .ok (st2, frame, tgt)
      ∧ frame.cols.lookup "color"
          = some (Column.num (List.replicate dfC10.nrows (some 0))) := by
  refine ⟨_, _, _, rfl, ?_⟩
  exact preprocess_no_encoder_zero_column cfgDemo stC10 _ dfC10 _ _
    ["airline", "color"] "color" ["red"] rfl rfl (by decide) rfl (by simp) rfl
